/-
Verification of the Go memory-model playground repository.

The repository is a teaching aid: a Go `main` package (playground, escape
analysis, memory tracking) plus slide markdown. The Go code is straight-line
and single-threaded, so we embed it shallowly as Lean functions that produce
explicit traces of observable events (prints, demo-function calls,
memory-statistics reads, heap allocations, field mutations), with fallible
operations (slice indexing, pointer dereference) returning `Option`.
Runtime-dependent quantities (the garbage collector's effect on
`runtime.MemStats`) are parameters of the embedding; Go `uint64` arithmetic
is modelled on `Nat` with explicit reduction modulo `2 ^ 64`.
-/
import Mathlib

set_option autoImplicit false
set_option maxRecDepth 100000

namespace GoMem

/-- Model of the four fields of `runtime.MemStats` that the program reads
(`TotalAlloc`, `HeapAlloc`, `HeapObjects`, `Mallocs`); all are `uint64` in Go,
modelled as `Nat` values (well-formed states keep them below `2 ^ 64`). -/
structure GoMemStats where
  totalAlloc : Nat
  heapAlloc : Nat
  heapObjects : Nat
  mallocs : Nat
deriving Repr, DecidableEq

/-- Go `uint64` subtraction `a - b`: the difference modulo `2 ^ 64`
(for `a, b < 2 ^ 64`). -/
def u64sub (a b : Nat) : Nat :=
  (a + 2 ^ 64 - b) % 2 ^ 64

/-- The `User` struct of the playground (`Name string; Age int`). -/
structure User where
  name : String
  age : Int
deriving Repr, DecidableEq

/-- The `LargeObject` struct (`ID int; Data []byte`); `Data` is created as
`make([]byte, 1024)` and never read, so we record its length. -/
structure LargeObject where
  id : Int
  dataLen : Nat
deriving Repr, DecidableEq

/-- Runtime values appearing as `fmt.Printf` arguments.  Addresses printed
with `%p` are model addresses: `vAddr` is a heap address, `vLocalAddr` names
the local variable whose stack address is printed. -/
inductive GoVal where
  | vInt (n : Int)
  | vNat (n : Nat)
  | vStr (s : String)
  | vUser (u : User)
  | vIntList (l : List Int)
  | vAddr (a : Nat)
  | vLocalAddr (name : String)
deriving Repr, DecidableEq

/-- Observable events of a program run.  The event vocabulary includes
goroutine spawning and synchronisation operations so that their absence from
every trace is a statement about the program, not about the vocabulary. -/
inductive Ev where
  | println (s : String)
  | printf (fmt : String) (args : List GoVal)
  | callFn (name : String)
  | gcRun
  | readStats (s : GoMemStats)
  | allocHeap (desc : String) (count : Nat)
  | setUserAge (addr : Nat) (old new : Int)
  | setLargeObjectField (id : Int) (field : String)
  | setSliceElem (backingIdx : Nat) (old new : Int)
  | writeGlobal (name : String)
  | readGlobal (name : String)
  | goSpawn
  | syncOp (desc : String)
deriving Repr, DecidableEq

/-- Is the event a `runtime.ReadMemStats` read? -/
def isReadStats : Ev → Bool
  | .readStats _ => true
  | _ => false

/-- Is the event a print (`fmt.Println` or `fmt.Printf`)? -/
def isPrintEv : Ev → Bool
  | .println _ => true
  | .printf _ _ => true
  | _ => false

/-- Is the event a function call? -/
def isCallFn : Ev → Bool
  | .callFn _ => true
  | _ => false

/-- The callee name of a call event, if any. -/
def callName : Ev → Option String
  | .callFn n => some n
  | _ => none

/-- Is the event a heap allocation? -/
def isAllocHeap : Ev → Bool
  | .allocHeap _ _ => true
  | _ => false

/-- Is the event a mutation of a field of an existing `User`? -/
def isUserMutation : Ev → Bool
  | .setUserAge _ _ _ => true
  | _ => false

/-- Is the event a mutation of a field of an existing `LargeObject`? -/
def isLargeObjectMutation : Ev → Bool
  | .setLargeObjectField _ _ => true
  | _ => false

/-- Is the event a read of a package-level global? -/
def isReadGlobal : Ev → Bool
  | .readGlobal _ => true
  | _ => false

/-- Does the event spawn a goroutine or perform a synchronisation
(channel/mutex/wait) operation? -/
def isConcurrencyEv : Ev → Bool
  | .goSpawn => true
  | .syncOp _ => true
  | _ => false

/-- The garbage collector and allocator are external to the repository: their
effect on `runtime.MemStats` during each tracked demo (and during
`runtime.GC()`) is a parameter of the embedding. -/
structure MemRuntime where
  gcEff : GoMemStats → GoMemStats
  stackOnlyEff : GoMemStats → GoMemStats
  stackStructEff : GoMemStats → GoMemStats
  heapAllocEff : GoMemStats → GoMemStats
  largeAllocEff : GoMemStats → GoMemStats

/-- `TrackMemory(name, fn)`: force a GC, read stats (`Before`), run `fn`,
read stats (`After`), then print the four `After - Before` deltas (`uint64`
subtraction) under a header naming the demo.  `fn` is modelled by its event
trace and its effect on the memory statistics; the `callFn "fn"` marker
records the single invocation of `fn`. -/
def TrackMemory (name : String) (gcEff : GoMemStats → GoMemStats)
    (fn : GoMemStats → List Ev × GoMemStats) (s0 : GoMemStats) :
    List Ev × GoMemStats :=
  let before := gcEff s0
  let r := fn before
  let after := r.2
  ([Ev.gcRun, Ev.readStats before, Ev.callFn "fn"] ++ r.1 ++
    [Ev.readStats after,
     Ev.printf "\n=== Memory Tracking: %s ===\n" [GoVal.vStr name],
     Ev.printf "  Total allocated:     %d bytes\n"
       [GoVal.vNat (u64sub after.totalAlloc before.totalAlloc)],
     Ev.printf "  Heap allocated:      %d bytes\n"
       [GoVal.vNat (u64sub after.heapAlloc before.heapAlloc)],
     Ev.printf "  Heap objects added:  %d\n"
       [GoVal.vNat (u64sub after.heapObjects before.heapObjects)],
     Ev.printf "  Mallocs:             %d\n"
       [GoVal.vNat (u64sub after.mallocs before.mallocs)]],
   after)

/-- `stackOnlyAllocation`: `x := 42; y := x + 10; _ = y` — locals only, no
observable events. -/
def stackOnlyAllocation : List Ev :=
  let x : Int := 42
  let y := x + 10
  let _ := y
  []

/-- `createLargeObject(id)`: returns `&LargeObject{ID: id, Data: make([]byte, 1024)}`
— two heap allocations (the byte slice and the object) and the object value. -/
def createLargeObject (id : Int) : List Ev × LargeObject :=
  ([Ev.allocHeap "make byte slice" 1024, Ev.allocHeap "LargeObject" 1],
   { id := id, dataLen := 1024 })

/-- `heapAllocationViaPointer`: `objects := make([]*LargeObject, 10)`, then a
loop `for i := 0; i < 10; i++` storing `createLargeObject(i)` in `objects[i]`.
Returns the trace and the final `objects` slice. -/
def heapAllocationViaPointer : List Ev × List (Option LargeObject) :=
  let init : List (Option LargeObject) := List.replicate 10 none
  (List.range 10).foldl
    (fun acc i =>
      let r := createLargeObject (Int.ofNat i)
      (acc.1 ++ r.1, acc.2.set i (some r.2)))
    ([Ev.allocHeap "make slice of LargeObject pointers" 10], init)

/-- The local `SmallStruct` type of `stackStructAllocation` (`A int; B int`). -/
structure SmallStruct where
  a : Int
  b : Int
deriving Repr, DecidableEq

/-- `stackStructAllocation`: `for i := 0; i < 100; i++` builds
`SmallStruct{A: i, B: i * 2}` and accumulates `sum += s.A + s.B`; the sum is
discarded (`_ = sum`).  Returns the final sum. -/
def stackStructAllocation : Int :=
  (List.range 100).foldl
    (fun sum i =>
      let s : SmallStruct := { a := Int.ofNat i, b := Int.ofNat i * 2 }
      sum + (s.a + s.b))
    0

/-- `largeAllocation`: `_ = make([]byte, 1024*1024)` — a single 1MB heap
allocation, immediately discarded. -/
def largeAllocation : List Ev :=
  [Ev.allocHeap "make 1MB byte slice" (1024 * 1024)]

/-- The 60-character separator line (60 copies of the equals sign) printed by
`DemonstrateMemoryTracking`. -/
def sep60 : String :=
  String.mk (List.replicate 60 (Char.ofNat 61))

/-- `DemonstrateMemoryTracking`: prints a banner, then runs `TrackMemory` on
the four demos in order (stack-only, small structs, heap allocation x10,
large allocation), threading the memory-statistics state, then prints a
closing separator. -/
def DemonstrateMemoryTracking (r : MemRuntime) (s0 : GoMemStats) :
    List Ev × GoMemStats :=
  let banner : List Ev :=
    [Ev.println ("\n" ++ sep60),
     Ev.println "MEMORY ALLOCATION TRACKING",
     Ev.println sep60]
  let t1 := TrackMemory "Stack Only (should be minimal)" r.gcEff
    (fun s => (Ev.callFn "stackOnlyAllocation" :: stackOnlyAllocation,
               r.stackOnlyEff s)) s0
  let t2 := TrackMemory "Small Structs on Stack" r.gcEff
    (fun s =>
      let sum := stackStructAllocation
      let _ := sum
      ([Ev.callFn "stackStructAllocation"], r.stackStructEff s)) t1.2
  let t3 := TrackMemory "Heap Allocation (createLargeObject x10)" r.gcEff
    (fun s => (Ev.callFn "heapAllocationViaPointer" :: heapAllocationViaPointer.1,
               r.heapAllocEff s)) t2.2
  let t4 := TrackMemory "Large Allocation (1MB slice)" r.gcEff
    (fun s => (Ev.callFn "largeAllocation" :: largeAllocation,
               r.largeAllocEff s)) t3.2
  (banner ++ t1.1 ++ t2.1 ++ t3.1 ++ t4.1 ++ [Ev.println ("\n" ++ sep60)],
   t4.2)

/-- `stackExample`: `x := 42` and one `Printf`. -/
def stackExample : List Ev :=
  let x : Int := 42
  [Ev.printf "  Stack variable x = %d (allocated on stack)\n" [GoVal.vInt x]]

/-- `createUser`: `u := User{Name: "Alice", Age: 30}; return &u` — the value
escapes to the heap and its pointer is returned. -/
def createUser : List Ev × User :=
  ([Ev.allocHeap "User moved to heap" 1], { name := "Alice", age := 30 })

/-- `heapExample`: `user := createUser()` then one `Printf` of `%+v` on the
returned pointer. -/
def heapExample : List Ev :=
  let r := createUser
  r.1 ++ [Ev.printf "  Heap variable user = %+v (allocated on heap, GC will clean up)\n"
    [GoVal.vUser r.2]]

/-- `pointerSharingExample`: allocates `&User{Name: "Bob", Age: 25}` on a
one-cell heap, copies the pointer into `ptr1`, `ptr2`, `ptr3` (all the model
address `0`), prints the four views, then performs `ptr1.Age = 26` — a write
through one alias, visible through `user` — and prints the mutated value.
Pointer dereference is a fallible heap lookup, so the result is `Option`. -/
def pointerSharingExample : Option (List Ev) :=
  let heap0 : List User := [{ name := "Bob", age := 25 }]
  let user : Nat := 0
  let ptr1 := user
  let ptr2 := user
  let ptr3 := user
  do
  let u0 ← heap0.get? user
  let u1 ← heap0.get? ptr1
  let u2 ← heap0.get? ptr2
  let u3 ← heap0.get? ptr3
  let old ← heap0.get? ptr1
  let heap1 := heap0.set ptr1 { old with age := 26 }
  let uAfter ← heap1.get? user
  pure
    [Ev.printf "  Original: %p (ptr at %p) -> %+v\n"
       [GoVal.vAddr user, GoVal.vLocalAddr "user", GoVal.vUser u0],
     Ev.printf "  Ptr1:     %p (ptr at %p) -> %+v\n"
       [GoVal.vAddr ptr1, GoVal.vLocalAddr "ptr1", GoVal.vUser u1],
     Ev.printf "  Ptr2:     %p (ptr at %p) -> %+v\n"
       [GoVal.vAddr ptr2, GoVal.vLocalAddr "ptr2", GoVal.vUser u2],
     Ev.printf "  Ptr3:     %p (ptr at %p) -> %+v\n"
       [GoVal.vAddr ptr3, GoVal.vLocalAddr "ptr3", GoVal.vUser u3],
     Ev.println "  All pointers share the same heap memory!",
     Ev.println "  GC will clean up when all references are gone",
     Ev.setUserAge ptr1 old.age 26,
     Ev.printf "  After modification via ptr1: %+v\n" [GoVal.vUser uAfter]]

/-- A Go slice header over a shared backing array: offset, length and
capacity. -/
structure GoSlice where
  off : Nat
  len : Nat
  cap : Nat
deriving Repr, DecidableEq

/-- The elements a slice presents, read from the backing array. -/
def sliceView (backing : List Int) (s : GoSlice) : List Int :=
  (backing.drop s.off).take s.len

/-- Bounds-checked slice read `s[i]` (Go panics out of bounds, hence
`Option`). -/
def sliceIndex (backing : List Int) (s : GoSlice) (i : Nat) : Option Int :=
  if i < s.len then backing.get? (s.off + i) else none

/-- Bounds-checked slice write `s[i] = v`, returning the updated backing
array. -/
def sliceSet (backing : List Int) (s : GoSlice) (i : Nat) (v : Int) :
    Option (List Int) :=
  if i < s.len then some (backing.set (s.off + i) v) else none

/-- `sliceSharingExample`: `original := []int{1, 2, 3, 4, 5}`,
`slice1 := original[1:4]`, `slice2 := original[2:]` — three views of one
backing array.  Prints the three views, performs `slice1[1] = 99`, and prints
them again.  Returns the trace together with the final backing array. -/
def sliceSharingExample : Option (List Ev × List Int) :=
  let backing0 : List Int := [1, 2, 3, 4, 5]
  let original : GoSlice := { off := 0, len := 5, cap := 5 }
  let slice1 : GoSlice := { off := 1, len := 3, cap := 4 }
  let slice2 : GoSlice := { off := 2, len := 3, cap := 3 }
  do
  let old ← sliceIndex backing0 slice1 1
  let backing1 ← sliceSet backing0 slice1 1 99
  pure
    ([Ev.printf "  Original: %v (len=%d, cap=%d)\n"
        [GoVal.vIntList (sliceView backing0 original),
         GoVal.vInt (Int.ofNat original.len), GoVal.vInt (Int.ofNat original.cap)],
      Ev.printf "  Slice1:   %v (len=%d, cap=%d)\n"
        [GoVal.vIntList (sliceView backing0 slice1),
         GoVal.vInt (Int.ofNat slice1.len), GoVal.vInt (Int.ofNat slice1.cap)],
      Ev.printf "  Slice2:   %v (len=%d, cap=%d)\n"
        [GoVal.vIntList (sliceView backing0 slice2),
         GoVal.vInt (Int.ofNat slice2.len), GoVal.vInt (Int.ofNat slice2.cap)],
      Ev.setSliceElem (slice1.off + 1) old 99,
      Ev.println "\n  After modifying slice1[1] = 99:",
      Ev.printf "  Original: %v (affected!)\n"
        [GoVal.vIntList (sliceView backing1 original)],
      Ev.printf "  Slice1:   %v\n" [GoVal.vIntList (sliceView backing1 slice1)],
      Ev.printf "  Slice2:   %v (also affected!)\n"
        [GoVal.vIntList (sliceView backing1 slice2)],
      Ev.println "  All slices share the same backing array on heap"],
     backing1)

/-- The package-level globals of `escape_analysis.go`:
`var globalInterface interface{}` and `var globalPtr *int`.
`globalInterface` holds the boxed int it is assigned; `globalPtr` holds the
content of the heap cell it points to. -/
structure Globals where
  globalInterface : Option Int
  globalPtr : Option Int
deriving Repr, DecidableEq

/-- Names of the package-level global variables defined by
`escape_analysis.go`. -/
def escapeAnalysisGlobalVars : List String :=
  ["globalInterface", "globalPtr"]

/-- Names of the closures (function literals) defined by
`escape_analysis.go`: only the one returned by `escapesViaClosure`. -/
def escapeAnalysisClosures : List String :=
  ["escapesViaClosure.func1"]

/-- Names of the tiny escape-analysis demo functions, in file order. -/
def escapeAnalysisDemoFunctions : List String :=
  ["noEscape", "escapesViaReturn", "escapesViaInterface",
   "escapesViaSizeTooLarge", "noEscapeLocalPointer", "escapesViaGlobal",
   "escapesViaClosure"]

/-- `noEscape`: `x := 42; _ = x` — stays on the stack, no events. -/
def noEscape : List Ev :=
  let x : Int := 42
  let _ := x
  []

/-- `escapesViaReturn`: `x := 42; return &x` — `x` moves to the heap; the
returned pointer is modelled as the (non-nil) heap cell content. -/
def escapesViaReturn : List Ev × Option Int :=
  ([Ev.allocHeap "x moved to heap" 1], some 42)

/-- Dereference of a (possibly nil) `*int`: fails on nil. -/
def derefInt (p : Option Int) : Option Int :=
  p

/-- `escapesViaInterface`: `x := 42; globalInterface = x` — `x` is boxed to
the heap and stored in the global; the global is written, never read. -/
def escapesViaInterface (g : Globals) : Globals × List Ev :=
  ({ g with globalInterface := some 42 },
   [Ev.allocHeap "x boxed to interface" 1, Ev.writeGlobal "globalInterface"])

/-- `escapesViaSizeTooLarge`: `largeArray := make([]int, 1000000); _ = largeArray`
— a single large heap allocation, immediately discarded. -/
def escapesViaSizeTooLarge : List Ev :=
  [Ev.allocHeap "make large int slice" 1000000]

/-- `noEscapeLocalPointer`: `x := 42; ptr := &x; _ = *ptr` — the pointer never
leaves the function, so nothing escapes and no event is observable. -/
def noEscapeLocalPointer : List Ev :=
  let x : Int := 42
  let ptr := some x
  let _ := derefInt ptr
  []

/-- `escapesViaGlobal`: `x := 42; globalPtr = &x` — `x` moves to the heap and
its pointer is stored in the global; the global is written, never read. -/
def escapesViaGlobal (g : Globals) : Globals × List Ev :=
  ({ g with globalPtr := some 42 },
   [Ev.allocHeap "x escapes via global pointer" 1, Ev.writeGlobal "globalPtr"])

/-- `escapesViaClosure`: `x := 42; return func() int { return x }` — the
closure capturing `x` is returned; the heap cell for `x` escapes. -/
def escapesViaClosure : List Ev × (Unit → Int) :=
  let x : Int := 42
  ([Ev.allocHeap "x captured by closure" 1], fun _ => x)

/-- `DemonstrateEscapeAnalysis`: calls the seven demos once each in file
order, dereferencing the pointer returned by `escapesViaReturn`
(`_ = *ptr`, fallible) and invoking the closure returned by
`escapesViaClosure` (`_ = fn()`).  Threads the two globals and prints
nothing. -/
def DemonstrateEscapeAnalysis (g : Globals) : Option (Globals × List Ev) :=
  let t0 := noEscape
  let r1 := escapesViaReturn
  do
  let _ ← derefInt r1.2
  let g1t2 := escapesViaInterface g
  let t3 := escapesViaSizeTooLarge
  let t4 := noEscapeLocalPointer
  let g2t5 := escapesViaGlobal g1t2.1
  let r6 := escapesViaClosure
  let v := r6.2 ()
  let _ := v
  pure
    (g2t5.1,
     Ev.callFn "noEscape" :: t0 ++
       Ev.callFn "escapesViaReturn" :: r1.1 ++
       Ev.callFn "escapesViaInterface" :: g1t2.2 ++
       Ev.callFn "escapesViaSizeTooLarge" :: t3 ++
       Ev.callFn "noEscapeLocalPointer" :: t4 ++
       Ev.callFn "escapesViaGlobal" :: g2t5.2 ++
       Ev.callFn "escapesViaClosure" :: r6.1 ++
       [Ev.callFn "escapesViaClosure.func1"])

/-- A statement of `main`, viewed syntactically: either a `fmt.Println`
header line or a call of a demo function. -/
inductive MainStmt where
  | printHeader (s : String)
  | callDemo (name : String)
deriving Repr, DecidableEq

/-- The callee of a `callDemo` statement, if any. -/
def demoName : MainStmt → Option String
  | .callDemo n => some n
  | _ => none

/-- Is the statement a print? -/
def isPrintStmt : MainStmt → Bool
  | .printHeader _ => true
  | _ => false

/-- The body of `main`, statement by statement, in source order. -/
def mainStatements : List MainStmt :=
  [MainStmt.printHeader "=== Go Memory Model Playground ===",
   MainStmt.printHeader "",
   MainStmt.printHeader "1. Stack vs Heap Allocation",
   MainStmt.callDemo "stackExample",
   MainStmt.callDemo "heapExample",
   MainStmt.printHeader "\n2. Pointer Sharing (Multiple References)",
   MainStmt.callDemo "pointerSharingExample",
   MainStmt.printHeader "\n3. Slice Sharing (Shared Backing Array)",
   MainStmt.callDemo "sliceSharingExample",
   MainStmt.callDemo "DemonstrateEscapeAnalysis",
   MainStmt.callDemo "DemonstrateMemoryTracking"]

/-- The first demo call of each commented example group in `main`. -/
def mainGroupStarts : List String :=
  ["stackExample", "pointerSharingExample", "sliceSharingExample",
   "DemonstrateEscapeAnalysis", "DemonstrateMemoryTracking"]

/-- The statement at index `i` of `main` calls `g` and the statement
immediately before it is a print (a labeled header directly precedes the
group). -/
def headerBefore (g : String) : Prop :=
  ∃ i : Fin mainStatements.length,
    mainStatements.get i = MainStmt.callDemo g ∧
    ∃ j : Fin mainStatements.length, (j : Nat) + 1 = (i : Nat) ∧
      isPrintStmt (mainStatements.get j) = true

instance (g : String) : Decidable (headerBefore g) := by
  unfold headerBefore
  infer_instance

/-- The semantics of `main`: the full event trace of one run of the program,
parameterised by the external memory runtime `r` and the initial memory
statistics `s0`.  Globals start nil.  `none` would indicate a reachable
failure (out-of-bounds index or nil dereference). -/
def goMain (r : MemRuntime) (s0 : GoMemStats) : Option (List Ev) := do
  let pse ← pointerSharingExample
  let sse ← sliceSharingExample
  let dea ← DemonstrateEscapeAnalysis { globalInterface := none, globalPtr := none }
  let dmt := DemonstrateMemoryTracking r s0
  pure
    ([Ev.println "=== Go Memory Model Playground ===",
      Ev.println "",
      Ev.println "1. Stack vs Heap Allocation",
      Ev.callFn "stackExample"] ++ stackExample ++
     Ev.callFn "heapExample" :: heapExample ++
     [Ev.println "\n2. Pointer Sharing (Multiple References)",
      Ev.callFn "pointerSharingExample"] ++ pse ++
     [Ev.println "\n3. Slice Sharing (Shared Backing Array)",
      Ev.callFn "sliceSharingExample"] ++ sse.1 ++
     Ev.callFn "DemonstrateEscapeAnalysis" :: dea.2 ++
     Ev.callFn "DemonstrateMemoryTracking" :: dmt.1)

/-- `main` returns normally, so the process exit code is 0 whenever the run
does not panic. -/
def mainExitCode (r : MemRuntime) (s0 : GoMemStats) : Option Nat :=
  (goMain r s0).map (fun _ => 0)

/-- The six demo functions invoked by `main`, in call order. -/
def mainDemoNames : List String :=
  ["stackExample", "heapExample", "pointerSharingExample",
   "sliceSharingExample", "DemonstrateEscapeAnalysis",
   "DemonstrateMemoryTracking"]

/-- Claim C1: `TrackMemory` reads the runtime memory statistics once before
calling `fn` and once after `fn` returns, calls `fn` exactly once in between,
and prints exactly the four deltas After minus Before (TotalAlloc, HeapAlloc,
HeapObjects, Mallocs) under a header naming the demo; it computes nothing
else from the statistics.  (The hypothesis says the tracked function itself
reads no statistics, performs no call of its own tracked kind, and prints
nothing — true of all four demos it is applied to.) -/
theorem trackMemory_reads_calls_prints_deltas
    (name : String) (gcEff : GoMemStats → GoMemStats)
    (fn : GoMemStats → List Ev × GoMemStats) (s0 : GoMemStats)
    (hfn : ∀ e ∈ (fn (gcEff s0)).1, isReadStats e = false ∧ isPrintEv e = false)
    (hcall : (fn (gcEff s0)).1.count (Ev.callFn "fn") = 0) :
    (TrackMemory name gcEff fn s0).1 =
      [Ev.gcRun, Ev.readStats (gcEff s0), Ev.callFn "fn"] ++
        (fn (gcEff s0)).1 ++
        [Ev.readStats (fn (gcEff s0)).2,
         Ev.printf "\n=== Memory Tracking: %s ===\n" [GoVal.vStr name],
         Ev.printf "  Total allocated:     %d bytes\n"
           [GoVal.vNat (u64sub (fn (gcEff s0)).2.totalAlloc (gcEff s0).totalAlloc)],
         Ev.printf "  Heap allocated:      %d bytes\n"
           [GoVal.vNat (u64sub (fn (gcEff s0)).2.heapAlloc (gcEff s0).heapAlloc)],
         Ev.printf "  Heap objects added:  %d\n"
           [GoVal.vNat (u64sub (fn (gcEff s0)).2.heapObjects (gcEff s0).heapObjects)],
         Ev.printf "  Mallocs:             %d\n"
           [GoVal.vNat (u64sub (fn (gcEff s0)).2.mallocs (gcEff s0).mallocs)]] ∧
    (TrackMemory name gcEff fn s0).1.filter isReadStats =
      [Ev.readStats (gcEff s0), Ev.readStats (fn (gcEff s0)).2] ∧
    (TrackMemory name gcEff fn s0).1.count (Ev.callFn "fn") = 1 ∧
    ((TrackMemory name gcEff fn s0).1.filter isPrintEv).length = 5 := by
  have h1 : (fn (gcEff s0)).1.filter isReadStats = [] :=
    List.filter_eq_nil_iff.mpr (fun a ha => by simp [(hfn a ha).1])
  have h3 : (fn (gcEff s0)).1.filter isPrintEv = [] :=
    List.filter_eq_nil_iff.mpr (fun a ha => by simp [(hfn a ha).2])
  refine ⟨rfl, ?_, ?_, ?_⟩
  · simp [TrackMemory, List.filter_append, h1, isReadStats]
  · simp [TrackMemory, List.count_append, hcall]
  · simp [TrackMemory, List.filter_append, h3, isPrintEv]

/-- Witness for claim C1: the theorem applied to the first tracked demo
(`stackOnlyAllocation`, whose trace is empty) at zero initial statistics. -/
theorem trackMemory_reads_calls_prints_deltas_witness :
    (TrackMemory "Stack Only (should be minimal)" id
        (fun s => (Ev.callFn "stackOnlyAllocation" :: stackOnlyAllocation, s))
        ⟨0, 0, 0, 0⟩).1.filter isReadStats =
      [Ev.readStats ⟨0, 0, 0, 0⟩, Ev.readStats ⟨0, 0, 0, 0⟩] :=
  (trackMemory_reads_calls_prints_deltas "Stack Only (should be minimal)" id
    (fun s => (Ev.callFn "stackOnlyAllocation" :: stackOnlyAllocation, s))
    ⟨0, 0, 0, 0⟩
    (by intro e he; simp [stackOnlyAllocation] at he; subst he; exact ⟨rfl, rfl⟩)
    (by decide)).2.1

/-- Claim C8: the deltas are computed by unsigned 64-bit subtraction; when a
statistic (here `HeapAlloc`) decreases across `fn`, the printed delta is the
difference modulo `2 ^ 64` — equal to `2 ^ 64` minus the decrease, hence a
huge positive number, never a negative one — and `TrackMemory` still
completes normally, emitting its full trace. -/
theorem trackMemory_delta_wraps_on_decrease
    (name : String) (gcEff : GoMemStats → GoMemStats)
    (fn : GoMemStats → List Ev × GoMemStats) (s0 : GoMemStats)
    (hb : (gcEff s0).heapAlloc < 2 ^ 64)
    (hdec : (fn (gcEff s0)).2.heapAlloc < (gcEff s0).heapAlloc) :
    u64sub (fn (gcEff s0)).2.heapAlloc (gcEff s0).heapAlloc =
      2 ^ 64 - ((gcEff s0).heapAlloc - (fn (gcEff s0)).2.heapAlloc) ∧
    0 < u64sub (fn (gcEff s0)).2.heapAlloc (gcEff s0).heapAlloc ∧
    Ev.printf "  Heap allocated:      %d bytes\n"
        [GoVal.vNat (u64sub (fn (gcEff s0)).2.heapAlloc (gcEff s0).heapAlloc)]
      ∈ (TrackMemory name gcEff fn s0).1 ∧
    (TrackMemory name gcEff fn s0).1.length = (fn (gcEff s0)).1.length + 9 := by
  have hlt : (fn (gcEff s0)).2.heapAlloc + 2 ^ 64 - (gcEff s0).heapAlloc
      < 2 ^ 64 := by omega
  have he : u64sub (fn (gcEff s0)).2.heapAlloc (gcEff s0).heapAlloc =
      2 ^ 64 - ((gcEff s0).heapAlloc - (fn (gcEff s0)).2.heapAlloc) := by
    unfold u64sub
    rw [Nat.mod_eq_of_lt hlt]
    omega
  refine ⟨he, ?_, ?_, ?_⟩
  · rw [he]; omega
  · simp [TrackMemory]
  · simp [TrackMemory]
    try omega

/-- Witness for claim C8: statistics decreasing from 100 to 40 across the
tracked function yield the wrapped positive delta `2 ^ 64 - 60`. -/
theorem trackMemory_delta_wraps_on_decrease_witness :
    u64sub 40 100 = 2 ^ 64 - 60 ∧ 0 < u64sub 40 100 :=
  let thm := trackMemory_delta_wraps_on_decrease "demo"
    (fun _ => ⟨100, 100, 100, 100⟩) (fun _ => ([], ⟨40, 40, 40, 40⟩))
    ⟨0, 0, 0, 0⟩ (by norm_num) (by norm_num)
  ⟨thm.1, thm.2.1⟩

/-- Claim C2 counterexample: it is not the case that a labeled section header
is printed immediately before each demo group — the statement of `main`
immediately before the call of `DemonstrateEscapeAnalysis` is the call of
`sliceSharingExample`, not a print. -/
theorem main_missing_header_before_escape_analysis :
    ¬ ∀ g ∈ mainGroupStarts, headerBefore g := by
  intro h
  exact absurd (h "DemonstrateEscapeAnalysis" (by decide)) (by decide)

/-- Claim C2 (amended): `main` invokes each demo exactly once, in the fixed
sequence stackExample, heapExample, pointerSharingExample,
sliceSharingExample, DemonstrateEscapeAnalysis, DemonstrateMemoryTracking,
with no other control flow, and the program exits with code zero; it prints a
labeled section header before each of the first three example groups, but no
header precedes the call of `DemonstrateEscapeAnalysis` (which prints
nothing), and `DemonstrateMemoryTracking` prints its own banner only after
being invoked. -/
theorem main_sequence_and_headers (r : MemRuntime) (s0 : GoMemStats) :
    mainStatements.filterMap demoName = mainDemoNames ∧
    headerBefore "stackExample" ∧
    headerBefore "pointerSharingExample" ∧
    headerBefore "sliceSharingExample" ∧
    ¬ headerBefore "DemonstrateEscapeAnalysis" ∧
    ¬ headerBefore "DemonstrateMemoryTracking" ∧
    ((((goMain r s0).getD []).filterMap callName).filter
        (fun n => mainDemoNames.contains n)) = mainDemoNames ∧
    mainExitCode r s0 = some 0 := by
  refine ⟨by decide, by decide, by decide, by decide, by decide, by decide,
    rfl, rfl⟩

/-- Claim C3: in `sliceSharingExample` the single assignment
`slice1[1] = 99` writes backing index 2, so `original[2]`, `slice1[1]` and
`slice2[0]` all read 99 afterwards, while every other element of `original`
keeps its initial value (final backing array `[1, 2, 99, 4, 5]`). -/
theorem sliceSharing_one_write_three_views :
    sliceSharingExample.map Prod.snd = some [1, 2, 99, 4, 5] ∧
    sliceSharingExample.map
        (fun p => sliceIndex p.2 { off := 0, len := 5, cap := 5 } 2) =
      some (some 99) ∧
    sliceSharingExample.map
        (fun p => sliceIndex p.2 { off := 1, len := 3, cap := 4 } 1) =
      some (some 99) ∧
    sliceSharingExample.map
        (fun p => sliceIndex p.2 { off := 2, len := 3, cap := 3 } 0) =
      some (some 99) ∧
    sliceSharingExample.map (fun p => p.2.get? 0) = some (some 1) ∧
    sliceSharingExample.map (fun p => p.2.get? 1) = some (some 2) ∧
    sliceSharingExample.map (fun p => p.2.get? 3) = some (some 4) ∧
    sliceSharingExample.map (fun p => p.2.get? 4) = some (some 5) ∧
    sliceSharingExample.map
        (fun p => p.1.filter (fun e => !isPrintEv e)) =
      some [Ev.setSliceElem 2 3 99] := by
  decide

/-- Claim C4 counterexample: `pointerSharingExample` reassigns the `Age`
field of the already-constructed `User` Bob (from 25 to 26) through the alias
`ptr1`, so it is false that no field of an existing `User` or `LargeObject`
is ever reassigned. -/
theorem pointerSharing_mutates_existing_user :
    ¬ pointerSharingExample.map
        (fun t => t.all (fun e => !isUserMutation e && !isLargeObjectMutation e)) =
      some true := by
  decide

/-- Claim C4 (amended): across the whole program run, `LargeObject` values
are never mutated after construction, and the only mutation of an existing
`User` is the single assignment `ptr1.Age = 26` in `pointerSharingExample`,
which changes Bob's age from 25 to 26. -/
theorem user_largeobject_mutation_inventory (r : MemRuntime) (s0 : GoMemStats) :
    ((goMain r s0).getD []).filter isUserMutation = [Ev.setUserAge 0 25 26] ∧
    ((goMain r s0).getD []).filter isLargeObjectMutation = [] :=
  ⟨rfl, rfl⟩

/-- Claim C5 counterexample: the escape-analysis source defines two
package-level globals (`globalInterface` and `globalPtr`), not exactly one. -/
theorem escape_analysis_not_one_global :
    ¬ (escapeAnalysisGlobalVars.length = 1 ∧
       escapeAnalysisClosures.length = 1) := by
  decide

/-- Claim C5 (amended): the escape-analysis source defines exactly two global
variables and exactly one closure, and they exist only to trigger the escape
diagnostic: the run writes each global exactly once and no demo function ever
reads a global back. -/
theorem escape_analysis_globals_inventory (g : Globals) :
    escapeAnalysisGlobalVars.length = 2 ∧
    escapeAnalysisClosures.length = 1 ∧
    ∃ res, DemonstrateEscapeAnalysis g = some res ∧
      res.2.filter isReadGlobal = [] ∧
      res.2.count (Ev.writeGlobal "globalInterface") = 1 ∧
      res.2.count (Ev.writeGlobal "globalPtr") = 1 := by
  exact ⟨rfl, rfl, _, rfl, rfl, rfl, rfl⟩

/-- Claim C6: the escape-analysis program consists of exactly 7 tiny demo
functions (within the stated 5–7), each performing at most one heap
allocation, and a driver `DemonstrateEscapeAnalysis` that calls each of them
exactly once in file order (plus the one invocation of the returned closure)
and prints nothing. -/
theorem escape_analysis_demo_structure (g : Globals) :
    escapeAnalysisDemoFunctions.length = 7 ∧
    5 ≤ escapeAnalysisDemoFunctions.length ∧
    escapeAnalysisDemoFunctions.length ≤ 7 ∧
    [noEscape.countP isAllocHeap,
     escapesViaReturn.1.countP isAllocHeap,
     (escapesViaInterface g).2.countP isAllocHeap,
     escapesViaSizeTooLarge.countP isAllocHeap,
     noEscapeLocalPointer.countP isAllocHeap,
     (escapesViaGlobal g).2.countP isAllocHeap,
     escapesViaClosure.1.countP isAllocHeap] = [0, 1, 1, 1, 0, 1, 1] ∧
    ∃ res, DemonstrateEscapeAnalysis g = some res ∧
      res.2.filterMap callName =
        escapeAnalysisDemoFunctions ++ ["escapesViaClosure.func1"] ∧
      res.2.filter isPrintEv = [] := by
  exact ⟨rfl, by decide, by decide, rfl, _, rfl, rfl, rfl⟩

/-- Claim C7: no demo function reachable from `main` has a failure path —
every slice index is in bounds, every dereferenced pointer is non-nil, and no
panic is reachable, so the whole run produces a trace for every external
memory runtime. -/
theorem goMain_no_failure (r : MemRuntime) (s0 : GoMemStats) :
    pointerSharingExample.isSome = true ∧
    sliceSharingExample.isSome = true ∧
    (DemonstrateEscapeAnalysis
        { globalInterface := none, globalPtr := none }).isSome = true ∧
    (goMain r s0).isSome = true :=
  ⟨rfl, rfl, rfl, rfl⟩

/-- Claim C9: `main` and every demo it invokes terminate on every execution:
the run yields a finite trace (112 events) for every external memory runtime,
the loop of `heapAllocationViaPointer` performs exactly its 10 bounded
iterations (10 objects with IDs 0–9), and the 100-iteration loop of
`stackStructAllocation` completes with sum 14850. -/
theorem program_terminates (r : MemRuntime) (s0 : GoMemStats) :
    (∃ t, goMain r s0 = some t ∧ t.length = 112) ∧
    heapAllocationViaPointer.2.length = 10 ∧
    heapAllocationViaPointer.2.filterMap (Option.map LargeObject.id) =
      [0, 1, 2, 3, 4, 5, 6, 7, 8, 9] ∧
    stackStructAllocation = 14850 := by
  exact ⟨⟨_, rfl, rfl⟩, rfl, by decide, by decide⟩

/-- Claim C10: the program is single-threaded — no event of any run spawns a
goroutine or performs a synchronisation operation; every mutation of shared
memory happens in the one sequential trace. -/
theorem program_single_threaded (r : MemRuntime) (s0 : GoMemStats) :
    ((goMain r s0).getD []).filter isConcurrencyEv = [] ∧
    ((goMain r s0).getD []).all (fun e => !isConcurrencyEv e) = true :=
  ⟨rfl, rfl⟩

end GoMem
